import Mathlib

/-!
Verification of the stackful cooperative task engine of
`src/ngx_python.c` (nginx-python-module).

The engine is shallowly embedded: Python objects are abstracted as
numeric identifiers, the per-thread interpreter state is the record of
the five fields the C code saves and restores (`recursion_depth`,
`frame`, `curexc_type`, `curexc_value`, `curexc_traceback`), and a
compiled script body is abstracted as its control skeleton: a tree whose
nodes are the calls to `ngx_python_yield` it performs, each with one
continuation for a successful suspend/resume (`NGX_OK`) and one for a
failed one (`NGX_ERROR`, i.e. the wrapped blocking call raised), ending
in the value `PyEval_EvalCode` returns (`null` meaning a raised,
uncaught error).

The ucontext coroutine (`getcontext`/`makecontext`/`swapcontext`) is
embedded by explicit continuations: a task's `uc` context is either the
not-yet-started entry routine (`TaskCont.start`, created by
`makecontext` with `uc_link = &ctx->ruc`) or the resumption point inside
`ngx_python_yield` just after its `swapcontext` call
(`TaskCont.resume`).  Platform failures of `getcontext` / the driver's
`swapcontext` / the yield-side `swapcontext` are modelled by the boolean
parameters `gcFail` / `scFail` / `yScFail` of the respective calls.
-/

namespace NgxPython

/-- Abstract identity of a `PyObject *` (only distinguishability matters). -/
abbrev Obj := Nat

def NGX_OK : Int := 0

def NGX_ERROR : Int := -1

/-- The five mutable per-thread interpreter fields that `ngx_python_eval`
saves and restores around every context switch (lines 309-336):
`recursion_depth`, `frame`, and the `curexc_type`/`curexc_value`/
`curexc_traceback` exception triple of `PyThreadState_GET()`. -/
structure PyThreadState where
  recursion_depth : Int
  frame : Option Nat
  curexc_type : Option Obj
  curexc_value : Option Obj
  curexc_traceback : Option Obj
deriving DecidableEq

/-- A zeroed interpreter snapshot, as produced for a fresh `ngx_pcalloc`-ed
context. -/
def psZero : PyThreadState := ⟨0, none, none, none, none⟩

def PyExc_RuntimeError : Obj := 1

def PyExc_OSError : Obj := 2

/-- The string object "blocking calls are not allowed" (line 168). -/
def msgNotAllowed : Obj := 10

/-- The string object "terminated" (line 182). -/
def msgTerminated : Obj := 11

/-- The errno-derived message of `PyErr_SetFromErrno` (line 175). -/
def msgErrno : Obj := 12

/-- `PyErr_SetString`: install a pending exception in the live thread state. -/
def PyErr_SetString (ps : PyThreadState) (ty msg : Obj) : PyThreadState :=
  { ps with curexc_type := some ty, curexc_value := some msg,
            curexc_traceback := none }

/-- `PyErr_SetFromErrno(PyExc_OSError)` (line 175). -/
def PyErr_SetFromErrno (ps : PyThreadState) (ty : Obj) : PyThreadState :=
  { ps with curexc_type := some ty, curexc_value := some msgErrno,
            curexc_traceback := none }

/-- Formatted diagnostic produced by `ngx_python_get_error` (lines 751-845):
abstracted as the pending exception's type/value; the real code renders
them as a string and always clears the error state (`PyErr_Clear`). -/
structure ErrMsg where
  excType : Option Obj
  excValue : Option Obj
deriving DecidableEq

/-- `ngx_python_get_error`: fetch and clear the pending exception, returning
the formatted diagnostic (lines 751-845, via `PyErr_Fetch`/`PyErr_Clear`). -/
def ngx_python_get_error (ps : PyThreadState) : PyThreadState × ErrMsg :=
  ({ ps with curexc_type := none, curexc_value := none,
             curexc_traceback := none },
   ⟨ps.curexc_type, ps.curexc_value⟩)

/-- Log records emitted by the engine, identified by their source site. -/
inductive LogEntry where
  /-- `ngx_log_error(NGX_LOG_ERR, ..., "python error: %s", ...)`
  (lines 356, 381). -/
  | pythonError (msg : ErrMsg)
  /-- `ngx_log_debug0(..., "getcontext() failed")` (line 289). -/
  | getcontextFailed
  /-- `ngx_log_error(NGX_LOG_ERR, ..., "swapcontext() failed")` (line 322). -/
  | swapcontextFailed
deriving DecidableEq

/-- Result of `PyEval_EvalCode`: a real object, or `NULL` after a raised,
uncaught error. -/
inductive PyRes where
  | null
  | obj (v : Obj)
deriving DecidableEq

/-- Control skeleton of a compiled script body: the sequence of
`ngx_python_yield` calls it performs.  At each yield site the body
continues with `onOk` when the yield call returned `NGX_OK`, and with
`onErr` when it returned `NGX_ERROR` (the wrapped blocking call raised;
`onErr = ret null` is a body that just unwinds).  `ret r` is the value
`PyEval_EvalCode` finally returns. -/
inductive Body where
  | ret (r : PyRes)
  | yield (onOk onErr : Body)
deriving DecidableEq

/-- The `ctx->result` slot: `NULL` (not started / cleared), the
`NGX_PYTHON_AGAIN` sentinel (pending; per the header's contract the
sentinel is distinct from every real object), or a real object. -/
inductive ResultSlot where
  | null
  | again
  | obj (v : Obj)
deriving DecidableEq

/-- The task's own ucontext `ctx->uc`: either set up by
`getcontext`/`makecontext` to run `ngx_python_task_handler` on the
task stack with `uc_link = &ctx->ruc` (lines 288-298), or saved inside
`ngx_python_yield` at its `swapcontext` call (line 174), where resumption
continues with the terminate-flag check (lines 181-187). -/
inductive TaskCont where
  | start
  | resume (onOk onErr : Body)
deriving DecidableEq

/-- Outcome of running the task context until control returns to the
driver: the body suspended at a yield site, or the entry routine
returned (falling through `uc_link` back to the driver). -/
inductive TaskOutcome where
  | suspendAt (onOk onErr : Body)
  | finished (r : PyRes)
deriving DecidableEq

/-- The per-task record `ngx_python_ctx_s` (lines 31-61), restricted to the
fields the engine core reads or writes.  `stack` records whether
`ctx->stack` has been allocated; `cont` is the configured `ctx->uc`;
`snapshot` groups the five saved interpreter fields (lines 52-56). -/
structure Ctx where
  code : Option Body
  result : ResultSlot
  wake : Option Nat
  stack : Bool
  cont : Option TaskCont
  snapshot : PyThreadState
  terminate : Bool
deriving DecidableEq

/-- A fresh `ngx_pcalloc`-ed context (all fields zeroed), as produced by
`ngx_python_create_ctx` (lines 202-240). -/
def ctxFresh : Ctx :=
  ⟨none, ResultSlot.null, none, false, none, psZero, false⟩

/-- Global engine state: the live interpreter fields of
`PyThreadState_GET()`, the process-wide active-task pointer
`ngx_python_ctx` (line 137, an optional context id), the heap of task
records, and the emitted log. -/
structure EngineState where
  ps : PyThreadState
  active : Option Nat
  ctxs : Nat → Ctx
  log : List LogEntry

/-- `ngx_python_set_ctx` (lines 147-156): swap the process-wide active ctx
pointer, returning (new value of the global, previous value). -/
def ngx_python_set_ctx (g c : Option Nat) : Option Nat × Option Nat := (c, g)

/-- Entry half of `ngx_python_yield` (lines 159-177), up to and including
its `swapcontext(&ctx->uc, &ctx->ruc)`: with no active ctx it raises
"blocking calls are not allowed" and returns `NGX_ERROR`; with an active
ctx it suspends, unless the swapcontext itself fails (`scFail`), in which
case it raises an OS error and returns `NGX_ERROR` without suspending. -/
inductive YieldEntry where
  | ret (rc : Int)
  | suspended
deriving DecidableEq

def ngx_python_yield_enter (active : Option Nat) (scFail : Bool)
    (ps : PyThreadState) : PyThreadState × YieldEntry :=
  match active with
  | none => (PyErr_SetString ps PyExc_RuntimeError msgNotAllowed,
             YieldEntry.ret NGX_ERROR)
  | some _ =>
      if scFail then (PyErr_SetFromErrno ps PyExc_OSError,
                      YieldEntry.ret NGX_ERROR)
      else (ps, YieldEntry.suspended)

/-- Resumption half of `ngx_python_yield` (lines 179-187), after its
`swapcontext` returns: if `ctx->terminate` is set it raises "terminated"
and returns `NGX_ERROR`, otherwise it returns `NGX_OK`. -/
def ngx_python_yield_resume (terminate : Bool) (ps : PyThreadState) :
    PyThreadState × Int :=
  if terminate then
    (PyErr_SetString ps PyExc_RuntimeError msgTerminated, NGX_ERROR)
  else (ps, NGX_OK)

/-- Execution of body code inside the task context, from the current point
until the next suspension or until the body returns.  Each yield site
runs the entry half of `ngx_python_yield`; if that suspends, control goes
back to the driver, otherwise the body continues on its error path. -/
def runTaskSeg (act : Option Nat) (yScFail : Bool) :
    Body → PyThreadState → PyThreadState × TaskOutcome
  | Body.ret r, ps => (ps, TaskOutcome.finished r)
  | Body.yield onOk onErr, ps =>
      let e := ngx_python_yield_enter act yScFail ps
      match e.2 with
      | YieldEntry.suspended => (e.1, TaskOutcome.suspendAt onOk onErr)
      | YieldEntry.ret _ => runTaskSeg act yScFail onErr e.1

/-- Book-keeping when control returns to the driver: a suspended body saves
its resumption point in `ctx->uc`; a returning entry routine
(`ngx_python_task_handler`, lines 370-385) has stored the body's result
in `ctx->result` and logged "python error" if it was `NULL`, and its
context is spent. -/
def finishRun (ps : PyThreadState) (out : TaskOutcome) (c : Ctx) :
    PyThreadState × Ctx × List LogEntry :=
  match out with
  | TaskOutcome.suspendAt onOk onErr =>
      (ps, { c with cont := some (TaskCont.resume onOk onErr) }, [])
  | TaskOutcome.finished PyRes.null =>
      let e := ngx_python_get_error ps
      (e.1, { c with cont := none, result := ResultSlot.null },
       [LogEntry.pythonError e.2])
  | TaskOutcome.finished (PyRes.obj v) =>
      (ps, { c with cont := none, result := ResultSlot.obj v }, [])

/-- Semantics of the driver's `swapcontext(&ctx->ruc, &ctx->uc)`
(line 321): run the task from its configured context until it suspends or
its entry routine falls through `uc_link` back to the driver.  A `start`
context runs `ngx_python_task_handler`, which evaluates `ctx->code`
(evaluating a `NULL` code object fails immediately); a `resume` context
continues inside `ngx_python_yield` with the terminate check. -/
def ngx_python_run_task (act : Option Nat) (yScFail : Bool) (c : Ctx)
    (ps : PyThreadState) : PyThreadState × Ctx × List LogEntry :=
  match c.cont with
  | none => (ps, c, [])
  | some TaskCont.start =>
      match c.code with
      | none =>
          let e := ngx_python_get_error ps
          (e.1, { c with cont := none, result := ResultSlot.null },
           [LogEntry.pythonError e.2])
      | some b =>
          let q := runTaskSeg act yScFail b ps
          finishRun q.1 q.2 c
  | some (TaskCont.resume onOk onErr) =>
      let y := ngx_python_yield_resume c.terminate ps
      let b := if y.2 = NGX_OK then onOk else onErr
      let q := runTaskSeg act yScFail b y.1
      finishRun q.1 q.2 c

/-- Post-switch bookkeeping of the driver (lines 326-347), on the state in
which the caller's interpreter fields and previous active ctx are already
restored: capture the live fields the task left behind (`run.1`) back
into the task's snapshot, read `ctx->result`, and if it is no longer the
pending sentinel clear the `code`/`wake`/`result` fields. -/
def ngx_python_eval_post (st : EngineState) (cid : Nat)
    (run : PyThreadState × Ctx × List LogEntry) : EngineState × ResultSlot :=
  let c2 : Ctx := { run.2.1 with snapshot := run.1 }
  let c3 := if c2.result = ResultSlot.again then c2
            else { c2 with code := none, wake := none,
                           result := ResultSlot.null }
  ({ st with ctxs := fun i => if i = cid then c3 else st.ctxs i,
             log := st.log ++ run.2.2 }, c2.result)

/-- The driver's snapshot dance around the context switch
(lines 305-347): install this ctx as active, save the five live
interpreter fields, install the task's snapshot, switch into the task
(a failing `swapcontext` is only logged and the task does not run),
capture the live fields back into the snapshot, restore the saved fields
and the previously active ctx, and finally read `ctx->result`: if it is
no longer the pending sentinel, clear `code`/`wake`/`result`. -/
def ngx_python_eval_dance (st : EngineState) (cid : Nat)
    (scFail yScFail : Bool) : EngineState × ResultSlot :=
  let c := st.ctxs cid
  let sw := ngx_python_set_ctx st.active (some cid)
  let saved := st.ps
  let run :=
    if scFail then (c.snapshot, c, [LogEntry.swapcontextFailed])
    else ngx_python_run_task sw.1 yScFail c c.snapshot
  let sw2 := ngx_python_set_ctx sw.1 sw.2
  ngx_python_eval_post { st with ps := saved, active := sw2.1 } cid run

/-- `ngx_python_eval` with a non-null wake handle (lines 279-347).  On the
task's first step (`ctx->result == NULL`) it allocates the stack if
needed, configures `ctx->uc` via `getcontext`/`makecontext` (a failing
`getcontext` is logged and the step returns the error signal), stores
the code and wake handle, and sets `ctx->result` to the pending
sentinel; then it performs the snapshot dance around the switch. -/
def ngx_python_eval_async (st : EngineState) (cid : Nat) (code : Option Body)
    (w : Nat) (gcFail scFail yScFail : Bool) : EngineState × ResultSlot :=
  let c := st.ctxs cid
  if c.result = ResultSlot.null then
    let c1 := if c.stack then c else { c with stack := true }
    if gcFail then
      ({ st with ctxs := fun i => if i = cid then c1 else st.ctxs i,
                 log := st.log ++ [LogEntry.getcontextFailed] },
       ResultSlot.null)
    else
      let c2 := { c1 with cont := some TaskCont.start, code := code,
                          wake := some w, result := ResultSlot.again }
      ngx_python_eval_dance
        { st with ctxs := fun i => if i = cid then c2 else st.ctxs i }
        cid scFail yScFail
  else
    ngx_python_eval_dance st cid scFail yScFail

/-- `PyEval_EvalCode` as called on the driver's own stack (line 354): no
task context exists around it, and `ngx_python_eval` has set the active
ctx pointer to `NULL` beforehand (line 350), so every `ngx_python_yield`
the body performs takes the "blocking calls are not allowed" path and the
body continues on its error path; no suspension ever occurs. -/
def evalCodeSync : Body → PyThreadState → PyThreadState × PyRes
  | Body.ret r, ps => (ps, r)
  | Body.yield _ onErr, ps =>
      let e := ngx_python_yield_enter none false ps
      evalCodeSync onErr e.1

/-- `ngx_python_eval` with a null wake handle (lines 350-364): set the
active ctx pointer to `NULL`, evaluate the code directly against the
namespace (logging "python error" on a `NULL` result), and restore the
previous active pointer — the task record is never touched. -/
def ngx_python_eval_sync (st : EngineState) (code : Option Body) :
    EngineState × ResultSlot :=
  match code with
  | some b =>
      let q := evalCodeSync b st.ps
      match q.2 with
      | PyRes.obj v => ({ st with ps := q.1 }, ResultSlot.obj v)
      | PyRes.null =>
          let e := ngx_python_get_error q.1
          ({ st with ps := e.1,
                     log := st.log ++ [LogEntry.pythonError e.2] },
           ResultSlot.null)
  | none =>
      let e := ngx_python_get_error st.ps
      ({ st with ps := e.1,
                 log := st.log ++ [LogEntry.pythonError e.2] },
       ResultSlot.null)

/-- `ngx_python_eval` (lines 266-365): one driver step of the task `cid`
when `wake` is non-null, or a direct synchronous evaluation when `wake`
is null. -/
def ngx_python_eval (st : EngineState) (cid : Nat) (code : Option Body)
    (wake : Option Nat) (gcFail scFail yScFail : Bool) :
    EngineState × ResultSlot :=
  match wake with
  | some w => ngx_python_eval_async st cid code w gcFail scFail yScFail
  | none => ngx_python_eval_sync st code

/-- The `while (result == NGX_PYTHON_AGAIN)` loop of
`ngx_python_cleanup_ctx` (lines 256-258), carrying the local `result`
variable and re-reading `ctx->wake` on each call, with explicit fuel
(the C loop is unbounded; the termination theorem bounds the fuel
needed). -/
def ngx_python_cleanup_loop : Nat → EngineState → Nat → ResultSlot →
    EngineState
  | 0, st, _, _ => st
  | fuel + 1, st, cid, result =>
      if result = ResultSlot.again then
        let q := ngx_python_eval st cid none ((st.ctxs cid).wake)
                   false false false
        ngx_python_cleanup_loop fuel q.1 cid q.2
      else st

/-- `ngx_python_cleanup_ctx` (lines 245-261): on pool destruction set
`ctx->terminate` and drive the task with `ngx_python_eval(ctx, NULL,
ctx->wake)` until the result is no longer the pending sentinel; the
final value is discarded (`Py_XDECREF`). -/
def ngx_python_cleanup_ctx (fuel : Nat) (st : EngineState) (cid : Nat) :
    EngineState :=
  let st1 := { st with ctxs := fun i => if i = cid then
                 { st.ctxs cid with terminate := true }
               else st.ctxs i }
  ngx_python_cleanup_loop fuel st1 cid ((st1.ctxs cid).result)

/-- Number of suspension points a terminated suspended body will still pass
through: after termination every resumed yield fails, so execution
follows the error continuations. -/
def errYields : Body → Nat
  | Body.ret _ => 0
  | Body.yield _ onErr => errYields onErr + 1

/-- The script namespace `ctx->ns`, an opaque dictionary of named
bindings. -/
abbrev PyDict := String → Option Obj

def PyDict_GetItemString (ns : PyDict) (name : String) : Option Obj :=
  ns name

def PyDict_SetItemString (ns : PyDict) (name : String) (v : Obj) : PyDict :=
  fun k => if k = name then some v else ns k

def PyDict_DelItemString (ns : PyDict) (name : String) : PyDict :=
  fun k => if k = name then none else ns k

/-- `ngx_python_set_value` (lines 406-421): look the name up; only when it
is absent install the supplied value; return the previous value (`NULL`
when absent). -/
def ngx_python_set_value (ns : PyDict) (name : String) (value : Obj) :
    PyDict × Option Obj :=
  let old := PyDict_GetItemString ns name
  match old with
  | none => (PyDict_SetItemString ns name value, none)
  | some o => (ns, some o)

/-- `ngx_python_reset_value` (lines 424-433): delete the binding only when
the saved previous value was `NULL` (the name had been absent). -/
def ngx_python_reset_value (ns : PyDict) (name : String) (old : Option Obj) :
    PyDict :=
  match old with
  | none => PyDict_DelItemString ns name
  | some _ => ns

/-- Concrete body: succeed immediately with object 5. -/
def bodyRet5 : Body := Body.ret (PyRes.obj 5)

/-- Concrete body: one successful suspension, then object 2; on a failed
yield it unwinds with an error. -/
def bodyOnce : Body := Body.yield (Body.ret (PyRes.obj 2)) (Body.ret PyRes.null)

/-- Concrete fresh engine state: no active ctx, all ctx records fresh. -/
def stFresh : EngineState :=
  ⟨psZero, none, fun _ => ctxFresh, []⟩

/-- Concrete suspended pending ctx: parked at the yield of `bodyOnce`,
stack allocated, wake handle 7 stored, not terminated. -/
def ctxSusp : Ctx :=
  ⟨some bodyOnce, ResultSlot.again, some 7, true,
   some (TaskCont.resume (Body.ret (PyRes.obj 2)) (Body.ret PyRes.null)),
   psZero, false⟩

/-- Concrete engine state holding the suspended pending task `ctxSusp` at
id 0. -/
def stSusp : EngineState :=
  ⟨psZero, none, fun _ => ctxSusp, []⟩

/-- `ctxSusp` with the terminate flag already set. -/
def ctxTerm : Ctx := { ctxSusp with terminate := true }

/-- Concrete namespace binding "x" to 5 and nothing else. -/
def dictEx : PyDict := fun k => if k = "x" then some 5 else none

/-! ## Helper lemmas -/

theorem stack_if_eq (c : Ctx) :
    (if c.stack then c else { c with stack := true }) =
      { c with stack := true } := by
  cases c with
  | mk cd rs wk stk kont snap term => cases stk <;> rfl

theorem finishRun_shape (ps : PyThreadState) (out : TaskOutcome) (c : Ctx) :
    ∃ k r, (finishRun ps out c).2.1 = { c with cont := k, result := r } ∧
      (r = c.result ∨ r ≠ ResultSlot.again) := by
  cases out with
  | suspendAt a b =>
      exact ⟨some (TaskCont.resume a b), c.result, rfl, Or.inl rfl⟩
  | finished r =>
      cases r with
      | null => exact ⟨none, ResultSlot.null, rfl, Or.inr (by decide)⟩
      | obj v =>
          exact ⟨none, ResultSlot.obj v, rfl,
                 Or.inr (fun hh => ResultSlot.noConfusion hh)⟩

theorem run_task_shape (act : Option Nat) (y : Bool) (c : Ctx)
    (ps : PyThreadState) :
    ∃ k r, (ngx_python_run_task act y c ps).2.1 =
        { c with cont := k, result := r } ∧
      (r = c.result ∨ r ≠ ResultSlot.again) := by
  rcases c with ⟨cd, rs, wk, stk, kont, snap, term⟩
  cases kont with
  | none => exact ⟨none, rs, rfl, Or.inl rfl⟩
  | some tc =>
      cases tc with
      | start =>
          cases cd with
          | none => exact ⟨none, ResultSlot.null, rfl, Or.inr (by decide)⟩
          | some b => exact finishRun_shape _ _ _
      | resume a b => exact finishRun_shape _ _ _

theorem post_props (st : EngineState) (cid : Nat)
    (run : PyThreadState × Ctx × List LogEntry) :
    (ngx_python_eval_post st cid run).1.ps = st.ps ∧
    (ngx_python_eval_post st cid run).1.active = st.active ∧
    (∀ j, j ≠ cid → (ngx_python_eval_post st cid run).1.ctxs j = st.ctxs j) ∧
    (ngx_python_eval_post st cid run).2 = run.2.1.result ∧
    (ngx_python_eval_post st cid run).1.log = st.log ++ run.2.2 ∧
    ((ngx_python_eval_post st cid run).1.ctxs cid).terminate =
      run.2.1.terminate ∧
    ((ngx_python_eval_post st cid run).1.ctxs cid).stack = run.2.1.stack ∧
    ((ngx_python_eval_post st cid run).2 = ResultSlot.again →
       ((ngx_python_eval_post st cid run).1.ctxs cid).result =
           ResultSlot.again ∧
       ((ngx_python_eval_post st cid run).1.ctxs cid).code = run.2.1.code ∧
       ((ngx_python_eval_post st cid run).1.ctxs cid).wake = run.2.1.wake ∧
       ((ngx_python_eval_post st cid run).1.ctxs cid).cont = run.2.1.cont) ∧
    ((ngx_python_eval_post st cid run).2 ≠ ResultSlot.again →
       ((ngx_python_eval_post st cid run).1.ctxs cid).result =
           ResultSlot.null ∧
       ((ngx_python_eval_post st cid run).1.ctxs cid).code = none ∧
       ((ngx_python_eval_post st cid run).1.ctxs cid).wake = none) := by
  obtain ⟨n, c1, lg⟩ := run
  by_cases h : c1.result = ResultSlot.again <;>
    simp [ngx_python_eval_post, h] <;>
    exact fun j hj hj2 => absurd hj2 hj

theorem dance_eq_post (st : EngineState) (cid : Nat) (s y : Bool) :
    ngx_python_eval_dance st cid s y =
      ngx_python_eval_post st cid
        (if s then ((st.ctxs cid).snapshot, st.ctxs cid,
                    [LogEntry.swapcontextFailed])
         else ngx_python_run_task (some cid) y (st.ctxs cid)
                (st.ctxs cid).snapshot) := rfl

theorem dance_run_shape (st : EngineState) (cid : Nat) (s y : Bool) :
    ∃ k r, (if s then ((st.ctxs cid).snapshot, st.ctxs cid,
                       [LogEntry.swapcontextFailed])
            else ngx_python_run_task (some cid) y (st.ctxs cid)
                   (st.ctxs cid).snapshot).2.1 =
        { st.ctxs cid with cont := k, result := r } ∧
      (r = (st.ctxs cid).result ∨ r ≠ ResultSlot.again) := by
  cases s with
  | false => exact run_task_shape _ _ _ _
  | true => exact ⟨(st.ctxs cid).cont, (st.ctxs cid).result, rfl, Or.inl rfl⟩

theorem dance_props (st : EngineState) (cid : Nat) (s y : Bool) :
    (ngx_python_eval_dance st cid s y).1.ps = st.ps ∧
    (ngx_python_eval_dance st cid s y).1.active = st.active ∧
    (∀ j, j ≠ cid →
       (ngx_python_eval_dance st cid s y).1.ctxs j = st.ctxs j) ∧
    ((ngx_python_eval_dance st cid s y).1.ctxs cid).terminate =
      (st.ctxs cid).terminate ∧
    ((ngx_python_eval_dance st cid s y).2 = ResultSlot.again →
       ((ngx_python_eval_dance st cid s y).1.ctxs cid).result =
           ResultSlot.again ∧
       ((ngx_python_eval_dance st cid s y).1.ctxs cid).code =
           (st.ctxs cid).code ∧
       ((ngx_python_eval_dance st cid s y).1.ctxs cid).wake =
           (st.ctxs cid).wake) ∧
    ((ngx_python_eval_dance st cid s y).2 ≠ ResultSlot.again →
       ((ngx_python_eval_dance st cid s y).1.ctxs cid).result =
           ResultSlot.null ∧
       ((ngx_python_eval_dance st cid s y).1.ctxs cid).code = none ∧
       ((ngx_python_eval_dance st cid s y).1.ctxs cid).wake = none) := by
  rw [dance_eq_post]
  obtain ⟨k, r, hsh, _⟩ := dance_run_shape st cid s y
  have P := post_props st cid
    (if s then ((st.ctxs cid).snapshot, st.ctxs cid,
                [LogEntry.swapcontextFailed])
     else ngx_python_run_task (some cid) y (st.ctxs cid)
            (st.ctxs cid).snapshot)
  obtain ⟨h1, h2, h3, h4, h5, h6, h7, h8, h9⟩ := P
  rw [hsh] at h6 h8
  exact ⟨h1, h2, h3, h6, fun ha => ⟨(h8 ha).1, (h8 ha).2.1, (h8 ha).2.2.1⟩,
         h9⟩

theorem eval_async_first (st : EngineState) (cid : Nat) (code : Option Body)
    (w : Nat) (s y : Bool) (h : (st.ctxs cid).result = ResultSlot.null) :
    ngx_python_eval st cid code (some w) false s y =
      ngx_python_eval_dance
        { st with
          ctxs := fun i => if i = cid then
                    { st.ctxs cid with
                      stack := true, cont := some TaskCont.start,
                      code := code, wake := some w,
                      result := ResultSlot.again }
                  else st.ctxs i } cid s y := by
  show ngx_python_eval_async st cid code w false s y = _
  unfold ngx_python_eval_async
  rw [if_pos h, stack_if_eq]
  rfl

theorem eval_async_nonnull (st : EngineState) (cid : Nat) (code : Option Body)
    (w : Nat) (g s y : Bool) (h : (st.ctxs cid).result ≠ ResultSlot.null) :
    ngx_python_eval st cid code (some w) g s y =
      ngx_python_eval_dance st cid s y := by
  show ngx_python_eval_async st cid code w g s y = _
  unfold ngx_python_eval_async
  rw [if_neg h]

theorem eval_async_getcontext_failed (st : EngineState) (cid : Nat)
    (code : Option Body) (w : Nat) (s y : Bool)
    (h : (st.ctxs cid).result = ResultSlot.null) :
    ngx_python_eval st cid code (some w) true s y =
      ({ st with
         ctxs := fun i => if i = cid then { st.ctxs cid with stack := true }
                 else st.ctxs i,
         log := st.log ++ [LogEntry.getcontextFailed] },
       ResultSlot.null) := by
  show ngx_python_eval_async st cid code w true s y = _
  unfold ngx_python_eval_async
  rw [if_pos h, stack_if_eq]
  rfl

theorem eval_sync_state (st : EngineState) (code : Option Body) :
    (ngx_python_eval_sync st code).1.ctxs = st.ctxs ∧
    (ngx_python_eval_sync st code).1.active = st.active := by
  cases code with
  | none => exact ⟨rfl, rfl⟩
  | some b =>
      unfold ngx_python_eval_sync
      rcases hq : evalCodeSync b st.ps with ⟨ps1, r⟩
      cases r <;> simp [hq]

theorem eval_ps_active (st : EngineState) (cid : Nat) (code : Option Body)
    (w : Nat) (g s y : Bool) :
    (ngx_python_eval st cid code (some w) g s y).1.ps = st.ps ∧
    (ngx_python_eval st cid code (some w) g s y).1.active = st.active := by
  by_cases h : (st.ctxs cid).result = ResultSlot.null
  · cases g with
    | true =>
        rw [eval_async_getcontext_failed st cid code w s y h]
        exact ⟨rfl, rfl⟩
    | false =>
        rw [eval_async_first st cid code w s y h]
        exact ⟨(dance_props _ cid s y).1, (dance_props _ cid s y).2.1⟩
  · rw [eval_async_nonnull st cid code w g s y h]
    exact ⟨(dance_props st cid s y).1, (dance_props st cid s y).2.1⟩

theorem eval_result_props (st : EngineState) (cid : Nat) (code : Option Body)
    (w : Nat) (s y : Bool) :
    ((ngx_python_eval st cid code (some w) false s y).2 = ResultSlot.again →
       ((ngx_python_eval st cid code (some w) false s y).1.ctxs cid).result =
         ResultSlot.again) ∧
    ((ngx_python_eval st cid code (some w) false s y).2 ≠ ResultSlot.again →
       ((ngx_python_eval st cid code (some w) false s y).1.ctxs cid).result =
           ResultSlot.null ∧
       ((ngx_python_eval st cid code (some w) false s y).1.ctxs cid).code =
           none ∧
       ((ngx_python_eval st cid code (some w) false s y).1.ctxs cid).wake =
           none) := by
  by_cases h : (st.ctxs cid).result = ResultSlot.null
  · rw [eval_async_first st cid code w s y h]
    exact ⟨fun ha => ((dance_props _ cid s y).2.2.2.2.1 ha).1,
           (dance_props _ cid s y).2.2.2.2.2⟩
  · rw [eval_async_nonnull st cid code w false s y h]
    exact ⟨fun ha => ((dance_props st cid s y).2.2.2.2.1 ha).1,
           (dance_props st cid s y).2.2.2.2.2⟩

theorem eval_terminate_preserve (st : EngineState) (cid : Nat)
    (code : Option Body) (wake : Option Nat) (g s y : Bool) (cid' : Nat) :
    ((ngx_python_eval st cid code wake g s y).1.ctxs cid').terminate =
      (st.ctxs cid').terminate := by
  cases wake with
  | none =>
      show ((ngx_python_eval_sync st code).1.ctxs cid').terminate = _
      rw [(eval_sync_state st code).1]
  | some w =>
      by_cases hj : cid' = cid
      · subst hj
        by_cases h : (st.ctxs cid').result = ResultSlot.null
        · cases g with
          | true =>
              rw [eval_async_getcontext_failed st cid' code w s y h]
              simp
          | false =>
              rw [eval_async_first st cid' code w s y h]
              rw [(dance_props _ cid' s y).2.2.2.1]
              simp
        · rw [eval_async_nonnull st cid' code w g s y h]
          exact (dance_props st cid' s y).2.2.2.1
      · by_cases h : (st.ctxs cid).result = ResultSlot.null
        · cases g with
          | true =>
              rw [eval_async_getcontext_failed st cid code w s y h]
              simp [hj]
          | false =>
              rw [eval_async_first st cid code w s y h]
              rw [(dance_props _ cid s y).2.2.1 cid' hj]
              simp [hj]
        · rw [eval_async_nonnull st cid code w g s y h]
          rw [(dance_props st cid s y).2.2.1 cid' hj]

theorem run_task_terminated (act : Option Nat) (y : Bool) (c : Ctx)
    (ps : PyThreadState) (onOk onErr : Body)
    (h2 : c.cont = some (TaskCont.resume onOk onErr))
    (h3 : c.terminate = true) :
    ngx_python_run_task act y c ps =
      finishRun
        (runTaskSeg act y onErr
          (PyErr_SetString ps PyExc_RuntimeError msgTerminated)).1
        (runTaskSeg act y onErr
          (PyErr_SetString ps PyExc_RuntimeError msgTerminated)).2 c := by
  unfold ngx_python_run_task
  rw [h2]
  unfold ngx_python_yield_resume
  rw [h3, if_pos rfl]
  norm_num [NGX_ERROR, NGX_OK]

theorem eval_terminated_step (st : EngineState) (cid : Nat)
    (code : Option Body) (w : Nat) (onOk onErr : Body)
    (h1 : (st.ctxs cid).result = ResultSlot.again)
    (h2 : (st.ctxs cid).cont = some (TaskCont.resume onOk onErr))
    (h3 : (st.ctxs cid).terminate = true) :
    ngx_python_eval st cid code (some w) false false false =
      ngx_python_eval_post st cid
        (finishRun
          (runTaskSeg (some cid) false onErr
            (PyErr_SetString (st.ctxs cid).snapshot PyExc_RuntimeError
              msgTerminated)).1
          (runTaskSeg (some cid) false onErr
            (PyErr_SetString (st.ctxs cid).snapshot PyExc_RuntimeError
              msgTerminated)).2
          (st.ctxs cid)) := by
  rw [eval_async_nonnull st cid code w false false false
        (by rw [h1]; exact fun hh => ResultSlot.noConfusion hh),
      dance_eq_post]
  rw [run_task_terminated (some cid) false (st.ctxs cid)
        (st.ctxs cid).snapshot onOk onErr h2 h3]
  rfl

theorem cleanup_loop_terminate (fuel : Nat) :
    ∀ (st : EngineState) (cid : Nat) (r : ResultSlot),
      ((ngx_python_cleanup_loop fuel st cid r).ctxs cid).terminate =
        (st.ctxs cid).terminate := by
  induction fuel with
  | zero => intro st cid r; rfl
  | succ n ih =>
      intro st cid r
      unfold ngx_python_cleanup_loop
      by_cases hr : r = ResultSlot.again
      · rw [if_pos hr, ih]
        exact eval_terminate_preserve st cid none ((st.ctxs cid).wake)
          false false false cid
      · rw [if_neg hr]

theorem cleanup_drain (onErr : Body) :
    ∀ (st : EngineState) (cid : Nat) (onOk : Body) (w : Nat),
      (st.ctxs cid).result = ResultSlot.again →
      (st.ctxs cid).cont = some (TaskCont.resume onOk onErr) →
      (st.ctxs cid).terminate = true →
      (st.ctxs cid).wake = some w →
      ((ngx_python_cleanup_loop (errYields onErr + 1) st cid
          ResultSlot.again).ctxs cid).result ≠ ResultSlot.again := by
  induction onErr with
  | ret r =>
      intro st cid onOk w h1 h2 h3 h4
      have hstep := eval_terminated_step st cid none w onOk (Body.ret r)
        h1 h2 h3
      show ((ngx_python_cleanup_loop (0 + 1) st cid
              ResultSlot.again).ctxs cid).result ≠ ResultSlot.again
      unfold ngx_python_cleanup_loop
      rw [if_pos rfl, h4, hstep]
      unfold ngx_python_cleanup_loop
      cases r <;>
        simp [runTaskSeg, finishRun, ngx_python_eval_post,
              ngx_python_get_error]
  | yield ok2 err2 ihOk ih =>
      intro st cid onOk w h1 h2 h3 h4
      have hstep := eval_terminated_step st cid none w onOk
        (Body.yield ok2 err2) h1 h2 h3
      simp only [runTaskSeg, ngx_python_yield_enter, Bool.false_eq_true,
                 if_false, finishRun] at hstep
      show ((ngx_python_cleanup_loop ((errYields err2 + 1) + 1) st cid
              ResultSlot.again).ctxs cid).result ≠ ResultSlot.again
      unfold ngx_python_cleanup_loop
      rw [if_pos rfl, h4, hstep]
      have hpost :
          ngx_python_eval_post st cid
            (PyErr_SetString (st.ctxs cid).snapshot PyExc_RuntimeError
              msgTerminated,
             { st.ctxs cid with
               cont := some (TaskCont.resume ok2 err2) }, []) =
          ({ st with
             ctxs := fun i => if i = cid then
                       { st.ctxs cid with
                         cont := some (TaskCont.resume ok2 err2),
                         snapshot := PyErr_SetString (st.ctxs cid).snapshot
                           PyExc_RuntimeError msgTerminated }
                     else st.ctxs i,
             log := st.log ++ [] }, (st.ctxs cid).result) := by
        simp only [ngx_python_eval_post]
        simp [h1]
      rw [hpost, h1]
      apply ih _ cid ok2 w <;> simp [h1, h2, h3, h4]

theorem cleanup_ctx_eq (fuel : Nat) (st : EngineState) (cid : Nat)
    (h1 : (st.ctxs cid).result = ResultSlot.again) :
    ngx_python_cleanup_ctx fuel st cid =
      ngx_python_cleanup_loop fuel
        { st with
          ctxs := fun i => if i = cid then
                    { st.ctxs cid with terminate := true }
                  else st.ctxs i }
        cid ResultSlot.again := by
  simp only [ngx_python_cleanup_ctx]
  congr 1

/-! ## Claims -/

/-- Claim C1: for every step call with a non-null wake handle, if this is
the task's first step (result slot empty) the stack is allocated, the own
context is initialized to run the entry routine with the caller context
as fall-through target (`TaskCont.start`, whose `uc_link` is the
driver's context), and the result is set to the pending sentinel (the
step then proceeds as the snapshot dance on that initialized state); at
the end of the call, if the result is still the pending sentinel the
call returns the pending indication and the slot stays pending,
otherwise the `code`/`wake`/`result` fields are cleared and the final
result (success value or error signal) is returned.  Platform calls are
taken to succeed at first-step setup (`gcFail = false`), as the claim
presupposes. -/
theorem claim_C1 (st : EngineState) (cid : Nat) (code : Option Body)
    (w : Nat) (s y : Bool) :
    ((st.ctxs cid).result = ResultSlot.null →
       ngx_python_eval st cid code (some w) false s y =
         ngx_python_eval_dance
           { st with
             ctxs := fun i => if i = cid then
                       { st.ctxs cid with
                         stack := true, cont := some TaskCont.start,
                         code := code, wake := some w,
                         result := ResultSlot.again }
                     else st.ctxs i } cid s y) ∧
    ((ngx_python_eval st cid code (some w) false s y).2 = ResultSlot.again →
       ((ngx_python_eval st cid code (some w) false s y).1.ctxs
           cid).result = ResultSlot.again) ∧
    ((ngx_python_eval st cid code (some w) false s y).2 ≠ ResultSlot.again →
       ((ngx_python_eval st cid code (some w) false s y).1.ctxs
           cid).result = ResultSlot.null ∧
       ((ngx_python_eval st cid code (some w) false s y).1.ctxs
           cid).code = none ∧
       ((ngx_python_eval st cid code (some w) false s y).1.ctxs
           cid).wake = none) :=
  ⟨fun h => eval_async_first st cid code w s y h,
   (eval_result_props st cid code w s y).1,
   (eval_result_props st cid code w s y).2⟩

/-- Witness for C1 at a fresh context and a non-suspending body. -/
theorem claim_C1_witness :
    ngx_python_eval stFresh 0 (some bodyRet5) (some 3) false false false =
      ngx_python_eval_dance
        { stFresh with
          ctxs := fun i => if i = 0 then
                    { stFresh.ctxs 0 with
                      stack := true, cont := some TaskCont.start,
                      code := some bodyRet5, wake := some 3,
                      result := ResultSlot.again }
                  else stFresh.ctxs i } 0 false false ∧
    ((ngx_python_eval stFresh 0 (some bodyRet5) (some 3) false false
        false).1.ctxs 0).result = ResultSlot.null ∧
    ((ngx_python_eval stFresh 0 (some bodyRet5) (some 3) false false
        false).1.ctxs 0).code = none :=
  ⟨(claim_C1 stFresh 0 (some bodyRet5) 3 false false).1 rfl,
   ((claim_C1 stFresh 0 (some bodyRet5) 3 false false).2.2 (by decide)).1,
   ((claim_C1 stFresh 0 (some bodyRet5) 3 false false).2.2
     (by decide)).2.1⟩

/-- Claim C2: every step with a wake handle saves the live interpreter
state (all five fields: recursion depth, frame, exception
type/value/traceback) and the active-task pointer on entry and restores
them on exit: after the step returns, the live interpreter fields and
the process-wide active ctx pointer equal their values just before the
step.  Quantifying over every engine state covers reentrant invocation
— stepping task B from inside task A's body leaves A's live interpreter
state and the restored active pointer exactly as they were just before B
was stepped. -/
theorem claim_C2 (st : EngineState) (cid : Nat) (code : Option Body)
    (w : Nat) (g s y : Bool) :
    (ngx_python_eval st cid code (some w) g s y).1.ps = st.ps ∧
    (ngx_python_eval st cid code (some w) g s y).1.active = st.active :=
  eval_ps_active st cid code w g s y

/-- Claim C3: starting from a not-started or pending result slot, a step
either reports pending and leaves the slot pending, or reports a final
(completed) result, in which case the record is retired in the same
call: the slot is cleared back to empty and the stored body is dropped
(`code = none`), so no later step can re-run this task's body — a later
step would be the first step of a new task on the recycled record.  The
slot thus moves only along not-started → pending → completed. -/
theorem claim_C3 (st : EngineState) (cid : Nat) (code : Option Body)
    (w : Nat) (s y : Bool)
    (h : (st.ctxs cid).result = ResultSlot.null ∨
         (st.ctxs cid).result = ResultSlot.again) :
    ((ngx_python_eval st cid code (some w) false s y).2 =
         ResultSlot.again ∧
     ((ngx_python_eval st cid code (some w) false s y).1.ctxs
         cid).result = ResultSlot.again) ∨
    ((ngx_python_eval st cid code (some w) false s y).2 ≠
         ResultSlot.again ∧
     ((ngx_python_eval st cid code (some w) false s y).1.ctxs
         cid).result = ResultSlot.null ∧
     ((ngx_python_eval st cid code (some w) false s y).1.ctxs
         cid).code = none ∧
     ((ngx_python_eval st cid code (some w) false s y).1.ctxs
         cid).wake = none) := by
  by_cases hr : (ngx_python_eval st cid code (some w) false s y).2 =
      ResultSlot.again
  · exact Or.inl ⟨hr, (eval_result_props st cid code w s y).1 hr⟩
  · exact Or.inr ⟨hr, (eval_result_props st cid code w s y).2 hr⟩

/-- Witness for C3 at a fresh context completing on its first step. -/
theorem claim_C3_witness :
    ((ngx_python_eval stFresh 0 (some bodyRet5) (some 3) false false
          false).2 = ResultSlot.again ∧
     ((ngx_python_eval stFresh 0 (some bodyRet5) (some 3) false false
          false).1.ctxs 0).result = ResultSlot.again) ∨
    ((ngx_python_eval stFresh 0 (some bodyRet5) (some 3) false false
          false).2 ≠ ResultSlot.again ∧
     ((ngx_python_eval stFresh 0 (some bodyRet5) (some 3) false false
          false).1.ctxs 0).result = ResultSlot.null ∧
     ((ngx_python_eval stFresh 0 (some bodyRet5) (some 3) false false
          false).1.ctxs 0).code = none ∧
     ((ngx_python_eval stFresh 0 (some bodyRet5) (some 3) false false
          false).1.ctxs 0).wake = none) :=
  claim_C3 stFresh 0 (some bodyRet5) 3 false false (Or.inl rfl)

/-- Claim C4: a call to the Suspend operation with no active task fails
with the "blocking calls are not allowed" error and returns the error
code, touching nothing but the pending-exception fields of the live
interpreter state (in particular no context switch is performed — the
outcome is an immediate return, not a suspension — and no task record or
stack is involved); repeating the call fails identically (idempotence). -/
theorem claim_C4 (scFail : Bool) (ps : PyThreadState) :
    ngx_python_yield_enter none scFail ps =
      (⟨ps.recursion_depth, ps.frame, some PyExc_RuntimeError,
        some msgNotAllowed, none⟩, YieldEntry.ret NGX_ERROR) ∧
    ngx_python_yield_enter none scFail
        (ngx_python_yield_enter none scFail ps).1 =
      ngx_python_yield_enter none scFail ps :=
  ⟨rfl, rfl⟩

/-- Claim C5: a resumed Suspend call checks the terminate flag: with the
flag set it raises the "terminated" error and returns the error code
(first conjunct), and the engine then continues the task on its error
continuation (third conjunct, the resumed switch for a terminated
suspended context); a Suspend call resumes successfully only when the
flag is unset (second conjunct); and no step ever clears the flag
(fourth conjunct), so once set the task never again returns successfully
from Suspend. -/
theorem claim_C5 :
    (∀ ps : PyThreadState,
       ngx_python_yield_resume true ps =
         (PyErr_SetString ps PyExc_RuntimeError msgTerminated,
          NGX_ERROR)) ∧
    (∀ (t : Bool) (ps : PyThreadState),
       (ngx_python_yield_resume t ps).2 = NGX_OK → t = false) ∧
    (∀ (act : Option Nat) (y : Bool) (c : Ctx) (ps : PyThreadState)
       (onOk onErr : Body),
       c.cont = some (TaskCont.resume onOk onErr) →
       c.terminate = true →
       ngx_python_run_task act y c ps =
         finishRun
           (runTaskSeg act y onErr
             (PyErr_SetString ps PyExc_RuntimeError msgTerminated)).1
           (runTaskSeg act y onErr
             (PyErr_SetString ps PyExc_RuntimeError msgTerminated)).2
           c) ∧
    (∀ (st : EngineState) (cid : Nat) (code : Option Body)
       (wake : Option Nat) (g s y : Bool) (cid' : Nat),
       ((ngx_python_eval st cid code wake g s y).1.ctxs cid').terminate =
         (st.ctxs cid').terminate) := by
  refine ⟨fun ps => ?_, fun t ps h => ?_,
          fun act y c ps onOk onErr h2 h3 =>
            run_task_terminated act y c ps onOk onErr h2 h3,
          fun st cid code wake g s y cid' =>
            eval_terminate_preserve st cid code wake g s y cid'⟩
  · unfold ngx_python_yield_resume
    rw [if_pos rfl]
  · cases t with
    | false => rfl
    | true => simp [ngx_python_yield_resume, NGX_ERROR, NGX_OK] at h

/-- Witness for C5 at the concrete terminated suspended context. -/
theorem claim_C5_witness :
    ngx_python_run_task (some 0) false ctxTerm psZero =
      finishRun
        (runTaskSeg (some 0) false (Body.ret PyRes.null)
          (PyErr_SetString psZero PyExc_RuntimeError msgTerminated)).1
        (runTaskSeg (some 0) false (Body.ret PyRes.null)
          (PyErr_SetString psZero PyExc_RuntimeError msgTerminated)).2
        ctxTerm ∧
    false = false :=
  ⟨claim_C5.2.2.1 (some 0) false ctxTerm psZero (Body.ret (PyRes.obj 2))
     (Body.ret PyRes.null) rfl rfl,
   claim_C5.2.1 false psZero rfl⟩

/-- Counterexample to C6: the claim says cleanup "repeatedly calls step
with a null wake handle".  The code (line 257) instead calls
`ngx_python_eval(ctx, NULL, ctx->wake)`: a null compiled body and the
task's stored, non-null wake handle.  At the concrete suspended pending
task `stSusp`, a step with a null wake handle takes the synchronous
path: it leaves the task record completely untouched — still pending,
still parked at its yield — so a loop of null-wake steps could never
make the result leave the pending sentinel; the implemented cleanup
(null body, stored wake) completes the task in one step. -/
theorem claim_C6_counterexample :
    ((ngx_python_eval stSusp 0 none none false false false).1.ctxs
        0).result = ResultSlot.again ∧
    (ngx_python_eval stSusp 0 none none false false false).1.ctxs 0 =
      ctxSusp ∧
    ((ngx_python_cleanup_ctx 1 stSusp 0).ctxs 0).result =
      ResultSlot.null := by
  decide

/-- Claim C6 (amended): when a task's owning scope is destroyed while the
result is still the pending sentinel, cleanup sets the terminate flag
and then repeatedly calls step with a null compiled body and the task's
stored wake handle until the result is no longer pending; the loop
completes within a number of steps equal to the number of remaining
suspension points on the task's forced error path (counting the one it
is parked at, where the "terminated" error is delivered), the terminate
flag stays set, and any value or error produced at completion is
discarded (the cleanup returns no value). -/
theorem claim_C6_amended (st : EngineState) (cid : Nat)
    (onOk onErr : Body) (w : Nat)
    (h1 : (st.ctxs cid).result = ResultSlot.again)
    (h2 : (st.ctxs cid).cont = some (TaskCont.resume onOk onErr))
    (h4 : (st.ctxs cid).wake = some w) :
    ((ngx_python_cleanup_ctx (errYields onErr + 1) st cid).ctxs
        cid).result ≠ ResultSlot.again ∧
    ((ngx_python_cleanup_ctx (errYields onErr + 1) st cid).ctxs
        cid).terminate = true := by
  rw [cleanup_ctx_eq (errYields onErr + 1) st cid h1]
  constructor
  · apply cleanup_drain onErr _ cid onOk w <;> simp [h1, h2, h4]
  · rw [cleanup_loop_terminate]
    simp

/-- Witness for the amended C6 at the concrete suspended pending task. -/
theorem claim_C6_amended_witness :
    ((ngx_python_cleanup_ctx (errYields (Body.ret PyRes.null) + 1) stSusp
        0).ctxs 0).result ≠ ResultSlot.again ∧
    ((ngx_python_cleanup_ctx (errYields (Body.ret PyRes.null) + 1) stSusp
        0).ctxs 0).terminate = true :=
  claim_C6_amended stSusp 0 (Body.ret (PyRes.obj 2)) (Body.ret PyRes.null)
    7 rfl rfl rfl

/-- Claim C7: with no wake handle supplied, the engine evaluates the
compiled body directly: the task heap and the active-task pointer are
left untouched (no stack allocation, no context initialization, no
snapshot swap — the whole `ctxs` component is unchanged); the Suspend
operation always fails during such an evaluation (with a null active ctx
its entry immediately returns the error code); and for a body that runs
to completion without suspending, the returned result and the emitted
error-reporting log are identical to those of the wake-handle mode's
completed (first-step) case, given matching pending-exception state. -/
theorem claim_C7 (st : EngineState) (cid : Nat) (code : Option Body)
    (g s y : Bool) :
    ((ngx_python_eval st cid code none g s y).1.ctxs = st.ctxs ∧
     (ngx_python_eval st cid code none g s y).1.active = st.active) ∧
    (∀ (sc : Bool) (ps : PyThreadState),
       (ngx_python_yield_enter none sc ps).2 =
         YieldEntry.ret NGX_ERROR) ∧
    (∀ (r : PyRes) (w : Nat),
       (st.ctxs cid).result = ResultSlot.null →
       (st.ctxs cid).snapshot.curexc_type = st.ps.curexc_type →
       (st.ctxs cid).snapshot.curexc_value = st.ps.curexc_value →
       (ngx_python_eval st cid (some (Body.ret r)) (some w) false false
           false).2 =
         (ngx_python_eval st cid (some (Body.ret r)) none false false
             false).2 ∧
       (ngx_python_eval st cid (some (Body.ret r)) (some w) false false
           false).1.log =
         (ngx_python_eval st cid (some (Body.ret r)) none false false
             false).1.log) := by
  refine ⟨⟨(eval_sync_state st code).1, (eval_sync_state st code).2⟩,
          fun sc ps => rfl, fun r w h1 hT hV => ?_⟩
  rw [eval_async_first st cid (some (Body.ret r)) w false false h1]
  cases r with
  | null =>
      constructor <;>
        simp [ngx_python_eval_dance, ngx_python_eval_post,
              ngx_python_set_ctx, ngx_python_run_task, runTaskSeg,
              finishRun, ngx_python_get_error, ngx_python_eval,
              ngx_python_eval_sync, evalCodeSync, hT, hV]
  | obj v =>
      constructor <;>
        simp [ngx_python_eval_dance, ngx_python_eval_post,
              ngx_python_set_ctx, ngx_python_run_task, runTaskSeg,
              finishRun, ngx_python_get_error, ngx_python_eval,
              ngx_python_eval_sync, evalCodeSync]

/-- Witness for C7 at a fresh context and a non-suspending body. -/
theorem claim_C7_witness :
    (ngx_python_eval stFresh 0 (some (Body.ret (PyRes.obj 9))) (some 4)
        false false false).2 =
      (ngx_python_eval stFresh 0 (some (Body.ret (PyRes.obj 9))) none
          false false false).2 ∧
    (ngx_python_eval stFresh 0 (some (Body.ret (PyRes.obj 9))) (some 4)
        false false false).1.log =
      (ngx_python_eval stFresh 0 (some (Body.ret (PyRes.obj 9))) none
          false false false).1.log :=
  (claim_C7 stFresh 0 none false false false).2.2 (PyRes.obj 9) 4
    rfl rfl rfl

/-- Counterexample to C8: the claim says every platform-call failure of
the context-switch primitive is surfaced as an engine error to the
caller of that attempt — "the step returns an error or the Suspend call
raises an error".  At the concrete suspended pending task `stSusp`, a
step whose driver-side `swapcontext` fails (lines 321-324) only logs
"swapcontext() failed" and then returns the pending sentinel — not an
error — and the Suspend call is never reached (the task record is left
exactly as it was, the exception state untouched). -/
theorem claim_C8_counterexample :
    (ngx_python_eval stSusp 0 none (some 7) false true false).2 =
      ResultSlot.again ∧
    (ngx_python_eval stSusp 0 none (some 7) false true false).1.log =
      [LogEntry.swapcontextFailed] ∧
    (ngx_python_eval stSusp 0 none (some 7) false true false).1.ctxs 0 =
      ctxSusp ∧
    (ngx_python_eval stSusp 0 none (some 7) false true false).1.ps =
      psZero := by
  decide

/-- Claim C8 (amended): a `getcontext` failure at first-step setup is
surfaced to the step's caller — the step logs it and returns the error
signal; a `swapcontext` failure inside the Suspend operation raises an
OS error and makes Suspend return the error code to the task body; but a
`swapcontext` failure in the driver's step is only logged — the step
still returns the pending sentinel, not an error. -/
theorem claim_C8_amended :
    (∀ (st : EngineState) (cid : Nat) (code : Option Body) (w : Nat)
       (s y : Bool),
       (st.ctxs cid).result = ResultSlot.null →
       (ngx_python_eval st cid code (some w) true s y).2 =
           ResultSlot.null ∧
       (ngx_python_eval st cid code (some w) true s y).1.log =
         st.log ++ [LogEntry.getcontextFailed]) ∧
    (∀ (a : Nat) (ps : PyThreadState),
       ngx_python_yield_enter (some a) true ps =
         (PyErr_SetFromErrno ps PyExc_OSError, YieldEntry.ret NGX_ERROR)) ∧
    (∀ (st : EngineState) (cid : Nat) (code : Option Body) (w : Nat)
       (y : Bool),
       (st.ctxs cid).result = ResultSlot.again →
       (ngx_python_eval st cid code (some w) false true y).2 =
           ResultSlot.again ∧
       (ngx_python_eval st cid code (some w) false true y).1.log =
         st.log ++ [LogEntry.swapcontextFailed]) := by
  refine ⟨fun st cid code w s y h => ?_, fun a ps => rfl,
          fun st cid code w y h => ?_⟩
  · rw [eval_async_getcontext_failed st cid code w s y h]
    exact ⟨rfl, rfl⟩
  · have hne : (st.ctxs cid).result ≠ ResultSlot.null := by
      rw [h]; exact fun hh => ResultSlot.noConfusion hh
    have he : ngx_python_eval st cid code (some w) false true y =
        ngx_python_eval_post st cid
          ((st.ctxs cid).snapshot, st.ctxs cid,
           [LogEntry.swapcontextFailed]) := by
      rw [eval_async_nonnull st cid code w false true y hne,
          dance_eq_post]
      rfl
    rw [he]
    have P := post_props st cid
      ((st.ctxs cid).snapshot, st.ctxs cid, [LogEntry.swapcontextFailed])
    exact ⟨P.2.2.2.1.trans h, P.2.2.2.2.1⟩

/-- Witness for the amended C8 at the concrete fresh and suspended
states. -/
theorem claim_C8_amended_witness :
    ((ngx_python_eval stFresh 0 (some bodyRet5) (some 3) true false
         false).2 = ResultSlot.null ∧
     (ngx_python_eval stFresh 0 (some bodyRet5) (some 3) true false
         false).1.log = stFresh.log ++ [LogEntry.getcontextFailed]) ∧
    ((ngx_python_eval stSusp 0 none (some 7) false true false).2 =
         ResultSlot.again ∧
     (ngx_python_eval stSusp 0 none (some 7) false true false).1.log =
       stSusp.log ++ [LogEntry.swapcontextFailed]) :=
  ⟨claim_C8_amended.1 stFresh 0 (some bodyRet5) 3 false false rfl,
   claim_C8_amended.2.2 stSusp 0 none 7 false rfl⟩

/-- Claim C9: for every namespace, name and new value, performing set
(`ngx_python_set_value`, which returns the previous value or absence)
followed by reset (`ngx_python_reset_value` with that returned value)
restores the namespace exactly: every name is bound precisely as it was
before — the name set is back to its original value if it was bound, and
absent if it was absent. -/
theorem claim_C9 (ns : PyDict) (name : String) (v : Obj) :
    ngx_python_reset_value (ngx_python_set_value ns name v).1 name
      (ngx_python_set_value ns name v).2 = ns := by
  cases h : PyDict_GetItemString ns name with
  | none =>
      funext k
      by_cases hk : k = name
      · simp [ngx_python_set_value, ngx_python_reset_value,
              PyDict_SetItemString, PyDict_DelItemString, h, hk]
        exact h.symm
      · simp [ngx_python_set_value, ngx_python_reset_value,
              PyDict_SetItemString, PyDict_DelItemString, h, hk]
  | some o =>
      simp [ngx_python_set_value, ngx_python_reset_value, h]

/-- Claim C10: `ngx_python_set_value` installs the supplied value only
when the name is absent from the namespace; when the name is already
bound, the binding is left completely unchanged, the existing value is
returned, and the matching `ngx_python_reset_value` call with that saved
value performs no deletion — so an injected per-request value can never
replace a binding the namespace already holds. -/
theorem claim_C10 (ns : PyDict) (name : String) (v o : Obj) :
    (PyDict_GetItemString ns name = some o →
       ngx_python_set_value ns name v = (ns, some o) ∧
       ngx_python_reset_value ns name (some o) = ns) ∧
    (PyDict_GetItemString ns name = none →
       ngx_python_set_value ns name v =
         (PyDict_SetItemString ns name v, none)) := by
  constructor
  · intro h
    exact ⟨by simp [ngx_python_set_value, h], rfl⟩
  · intro h
    simp [ngx_python_set_value, h]

/-- Witness for C10 at the concrete namespace binding "x" to 5. -/
theorem claim_C10_witness :
    (ngx_python_set_value dictEx "x" 7 = (dictEx, some 5) ∧
     ngx_python_reset_value dictEx "x" (some 5) = dictEx) ∧
    ngx_python_set_value dictEx "y" 7 =
      (PyDict_SetItemString dictEx "y" 7, none) :=
  ⟨(claim_C10 dictEx "x" 7 5).1 rfl, (claim_C10 dictEx "y" 7 5).2 rfl⟩

end NgxPython
